import Mathlib

/-!
Verification of the financial integrity core of the Kosh-AI platform:
the immutable double-entry ledger (`backend/services/ledger.py`), the
transaction orchestrator (`backend/services/transaction_engine.py`) and
the risk gate (`backend/services/risk_engine.py`).

Amounts are `Decimal` in the source; they are embedded as `Rat`, which is
exact for every arithmetic operation the core performs (sums, subtraction,
multiplication by the 2% fee factor).  Database rows are embedded as lists
inside an explicit state record; raising a `ValueError` is embedded as
`Except.error` carrying a typed domain error (one constructor per distinct
error message of the source), and the surrounding session rollback is the
fact that an `Except.error` result carries no successor state.
-/

set_option allowUnsafeReducibility true
attribute [semireducible] Rat.add Rat.mul Rat.div Rat.sub Rat.neg Rat.inv

set_option synthInstance.maxSize 1024
set_option maxRecDepth 4096
set_option maxHeartbeats 1000000

/-- Domain errors: one constructor per distinct `ValueError` raised by the
ledger service, the transaction engine and the risk gate. -/
inductive DomainError where
  | orderNotFound
  | invalidState (status : String)
  | riskBlocked (score : Rat) (reasons : List String)
  | riskReview (score : Rat) (reasons : List String)
  | insufficientFunds (balance required : Rat)
  | duplicateKey (key : String)
  | unbalanced (debits credits : Rat)
  | notPositive
  | accountFrozen (id : Nat)
  | accountNotFound (id : Nat)
  deriving Repr, DecidableEq

/-- EntryRequest of `backend/services/ledger.py`: one leg of a requested
transaction (account id, amount, direction "DEBIT" or "CREDIT"). -/
structure EntryRequest where
  account_id : Nat
  amount : Rat
  direction : String
  deriving Repr, DecidableEq

/-- TransactionRequest of `backend/services/ledger.py`. -/
structure TransactionRequest where
  idempotency_key : String
  reference_type : String
  reference_id : Nat
  description : String
  entries : List EntryRequest
  created_by : Option Nat
  deriving Repr, DecidableEq

/-- LedgerAccount row of `backend/models/models.py`. -/
structure LedgerAccount where
  id : Nat
  owner_type : String
  owner_id : Nat
  account_type : String
  currency : String
  balance : Rat
  is_frozen : Bool
  deriving Repr, DecidableEq

/-- LedgerTransaction row of `backend/models/models.py`. -/
structure LedgerTransaction where
  id : Nat
  idempotency_key : String
  reference_type : String
  reference_id : Nat
  description : String
  status : String
  created_by : Option Nat
  deriving Repr, DecidableEq

/-- LedgerEntry row of `backend/models/models.py`: immutable line holding
the direction, amount and the balance-after snapshot. -/
structure LedgerEntry where
  transaction_id : Nat
  account_id : Nat
  direction : String
  amount : Rat
  balance_after : Rat
  deriving Repr, DecidableEq

/-- The ledger tables: accounts (mutable balance), transactions and
entries (append-only), plus fresh-id counters standing for the database
primary-key generators. -/
structure LedgerState where
  accounts : List LedgerAccount
  transactions : List LedgerTransaction
  entries : List LedgerEntry
  next_tx_id : Nat
  next_account_id : Nat
  deriving Repr, DecidableEq

/-- Order row (the fields the core reads and the status it writes). -/
structure Order where
  id : Nat
  merchant_id : Nat
  supplier_id : Nat
  po_number : String
  status : String
  total_amount : Rat
  deriving Repr, DecidableEq

/-- Combined state seen by the transaction engine. -/
structure EngineState where
  ledger : LedgerState
  orders : List Order
  deriving Repr, DecidableEq

/-- Sum of the amounts of the legs with the given direction. -/
def reqSumDir (entries : List EntryRequest) (d : String) : Rat :=
  entries.foldr (fun e acc => if e.direction == d then e.amount + acc else acc) 0

/-- Sum of the amounts of the DEBIT legs, as computed at
`ledger.py` line 92. -/
def sumDebits (entries : List EntryRequest) : Rat := reqSumDir entries "DEBIT"

/-- Sum of the amounts of the CREDIT legs, as computed at
`ledger.py` line 93. -/
def sumCredits (entries : List EntryRequest) : Rat := reqSumDir entries "CREDIT"

/-- Sum of the amounts of the stored ledger entries with the given
direction. -/
def entrySumDir (les : List LedgerEntry) (d : String) : Rat :=
  les.foldr (fun le acc => if le.direction == d then le.amount + acc else acc) 0

/-- Does some stored transaction already carry this idempotency key
(the check of `ledger.py` lines 85-89)? -/
def hasKey (st : LedgerState) (k : String) : Bool :=
  st.transactions.any (fun t => t.idempotency_key == k)

/-- Signed balance delta of one entry, `ledger.py` lines 150-159: account
types WALLET, RECEIVABLE, EXPENSE gain on DEBIT and lose otherwise; every
other account type (PAYABLE, REVENUE, EQUITY, CREDIT, and also HOLD, which
is absent from the first list) gains on CREDIT and loses otherwise. -/
def balance_change (account_type : String) (direction : String) (amount : Rat) : Rat :=
  if account_type == "WALLET" || account_type == "RECEIVABLE" || account_type == "EXPENSE" then
    if direction == "DEBIT" then amount else -amount
  else
    if direction == "CREDIT" then amount else -amount

/-- Stable insertion keeping ascending `account_id` order, placing the new
element before the first strictly larger key: together with `sortEntries`
this is the stable Python `sorted(entries, key=account_id)`. -/
def insertByAccount (e : EntryRequest) : List EntryRequest → List EntryRequest
  | [] => [e]
  | x :: xs => if x.account_id < e.account_id then x :: insertByAccount e xs else e :: x :: xs

/-- Sort of the requested entries by account id, `ledger.py` line 115. -/
def sortEntries : List EntryRequest → List EntryRequest
  | [] => []
  | e :: rest => insertByAccount e (sortEntries rest)

/-- Lookup of an account row by primary key (the re-fetch with
`FOR UPDATE` at `ledger.py` line 120). -/
def findAccount (accounts : List LedgerAccount) (accId : Nat) : Option LedgerAccount :=
  accounts.find? (fun a => a.id == accId)

/-- Write-back of a mutated account row into the accounts table. -/
def storeAccount (accounts : List LedgerAccount) (a : LedgerAccount) : List LedgerAccount :=
  accounts.map (fun x => if x.id == a.id then a else x)

/-- One iteration of the entry loop of `post_transaction`
(`ledger.py` lines 117-171): lock and fetch the account, reject if frozen,
apply the signed delta, and record the immutable entry with its
balance-after snapshot. -/
def applyEntry (accounts : List LedgerAccount) (txid : Nat) (e : EntryRequest) :
    Except DomainError (List LedgerAccount × LedgerEntry) :=
  match findAccount accounts e.account_id with
  | none => Except.error (DomainError.accountNotFound e.account_id)
  | some account =>
    if account.is_frozen then Except.error (DomainError.accountFrozen account.id)
    else
      let account2 := { account with
        balance := account.balance + balance_change account.account_type e.direction e.amount }
      Except.ok (storeAccount accounts account2,
        { transaction_id := txid, account_id := account.id, direction := e.direction,
          amount := e.amount, balance_after := account2.balance })

/-- The entry loop of `post_transaction` over the sorted entries. -/
def processEntries (accounts : List LedgerAccount) (txid : Nat) :
    List EntryRequest → Except DomainError (List LedgerAccount × List LedgerEntry)
  | [] => Except.ok (accounts, [])
  | e :: rest =>
    match applyEntry accounts txid e with
    | Except.error err => Except.error err
    | Except.ok (accounts2, le) =>
      match processEntries accounts2 txid rest with
      | Except.error err => Except.error err
      | Except.ok (accounts3, les) => Except.ok (accounts3, le :: les)

/-- LedgerService.post_transaction (`ledger.py` lines 72-173): idempotency
check, double-entry validation, strict positivity, then the locked entry
loop; any failure rolls the whole call back, which the `Except.error`
result embeds by carrying no successor state. -/
def post_transaction (st : LedgerState) (req : TransactionRequest) :
    Except DomainError (LedgerState × LedgerTransaction) :=
  if hasKey st req.idempotency_key then
    Except.error (DomainError.duplicateKey req.idempotency_key)
  else if sumDebits req.entries ≠ sumCredits req.entries then
    Except.error (DomainError.unbalanced (sumDebits req.entries) (sumCredits req.entries))
  else if sumDebits req.entries ≤ 0 then
    Except.error DomainError.notPositive
  else
    let tx : LedgerTransaction :=
      { id := st.next_tx_id, idempotency_key := req.idempotency_key,
        reference_type := req.reference_type, reference_id := req.reference_id,
        description := req.description, status := "posted", created_by := req.created_by }
    match processEntries st.accounts tx.id (sortEntries req.entries) with
    | Except.error err => Except.error err
    | Except.ok (accounts2, newEntries) =>
      let st2 : LedgerState :=
        { accounts := accounts2, transactions := st.transactions ++ [tx],
          entries := st.entries ++ newEntries, next_tx_id := st.next_tx_id + 1,
          next_account_id := st.next_account_id }
      Except.ok (st2, tx)

/-- LedgerService.get_or_create_account (`ledger.py` lines 39-70): look up
by the four-part identity, else create with zero balance. -/
def get_or_create_account (st : LedgerState) (owner_type : String) (owner_id : Nat)
    (account_type : String) (currency : String) : LedgerState × LedgerAccount :=
  match st.accounts.find? (fun a =>
      a.owner_id == owner_id && a.owner_type == owner_type &&
      a.account_type == account_type && a.currency == currency) with
  | some a => (st, a)
  | none =>
    let a : LedgerAccount :=
      { id := st.next_account_id, owner_type := owner_type, owner_id := owner_id,
        account_type := account_type, currency := currency, balance := 0, is_frozen := false }
    ({ st with accounts := st.accounts ++ [a], next_account_id := st.next_account_id + 1 }, a)

/-- Balance of the account with the given id, if present. -/
def getBalance (st : LedgerState) (accId : Nat) : Option Rat :=
  (findAccount st.accounts accId).map (fun a => a.balance)

/-- Number of stored transactions carrying the given idempotency key. -/
def countKey (st : LedgerState) (key : String) : Nat :=
  (st.transactions.filter (fun t => t.idempotency_key == key)).length

/-- Status of the order with the given id, if present. -/
def orderStatus (st : EngineState) (oid : Nat) : Option String :=
  (st.orders.find? (fun o => o.id == oid)).map (fun o => o.status)

/-- Lookup of an order row by id. -/
def findOrder (orders : List Order) (oid : Nat) : Option Order :=
  orders.find? (fun o => o.id == oid)

/-- In-place status write on the fetched order row
(`order.status = ...` in the source). -/
def setOrderStatus (orders : List Order) (oid : Nat) (s : String) : List Order :=
  orders.map (fun o => if o.id == oid then { o with status := s } else o)

/-- RiskDecision of `backend/services/risk_engine.py`. -/
structure RiskDecision where
  decision : String
  score : Rat
  reasons : List String
  deriving Repr, DecidableEq

/-- MAX_AUTO_APPROVE_AMOUNT of `risk_engine.py` line 24. -/
def MAX_AUTO_APPROVE_AMOUNT : Rat := 50000

/-- CRITICAL_RISK_SCORE_THRESHOLD of `risk_engine.py` line 25. -/
def CRITICAL_RISK_SCORE_THRESHOLD : Rat := 80

/-- VELOCITY_LIMIT_1H of `risk_engine.py` line 26. -/
def VELOCITY_LIMIT_1H : Nat := 10

/-- Low-trust threshold 0.3 of `risk_engine.py` line 76. -/
def LOW_TRUST_THRESHOLD : Rat := 3 / 10

/-- RiskEngine.evaluate_transaction (`risk_engine.py` lines 28-108).  The
two database reads are passed in explicitly: `velocity` is the count of
the orders of the merchant created in the trailing hour, and `reliability` is
the stored reliability score of the (merchant, supplier) pair when such a
Score row exists (`none` when the supplier is unknown or no row exists).
The audit-log insert touches no state this development tracks. -/
def evaluate_transaction (amount : Rat) (velocity : Nat) (reliability : Option Rat) :
    RiskDecision :=
  let highValue := MAX_AUTO_APPROVE_AMOUNT < amount
  let score1 : Rat := if highValue then 10 + 40 else 10
  let reasons1 : List String :=
    if highValue then ["High Value Transaction (> 50000.00)"] else []
  let highVelocity := VELOCITY_LIMIT_1H < velocity
  let score2 := if highVelocity then score1 + 50 else score1
  let reasons2 :=
    if highVelocity then reasons1 ++ ["High Velocity (" ++ toString velocity ++ " orders/hr)"]
    else reasons1
  let lowTrust : Bool := match reliability with
    | some r => decide (r < LOW_TRUST_THRESHOLD)
    | none => false
  let score3 := if lowTrust then score2 + 30 else score2
  let reasons3 := if lowTrust then reasons2 ++ ["Low Supplier Reliability"] else reasons2
  let decision :=
    if CRITICAL_RISK_SCORE_THRESHOLD ≤ score3 then "BLOCK"
    else if 50 ≤ score3 ∨ MAX_AUTO_APPROVE_AMOUNT < amount then "REVIEW"
    else "APPROVE"
  { decision := decision, score := score3, reasons := reasons3 }

/-- SYSTEM_ID of `transaction_engine.py` line 34 (the all-zero UUID). -/
def SYSTEM_ID : Nat := 0

/-- TransactionEngine.place_order_hold (`transaction_engine.py` lines
38-114): fetch the order, no-op on `funds_held`, reject any other
non-pending status, run the risk gate (its two database reads passed as
`velocity` and `reliability`), set up the wallet and hold accounts, check
the wallet balance, post DEBIT wallet / CREDIT hold, and mark the order
`funds_held`. -/
def place_order_hold (st : EngineState) (order_id : Nat) (velocity : Nat)
    (reliability : Option Rat) : Except DomainError (EngineState × String) :=
  match findOrder st.orders order_id with
  | none => Except.error DomainError.orderNotFound
  | some order =>
    if order.status ≠ "pending" then
      if order.status = "funds_held" then Except.ok (st, "Funds already held.")
      else Except.error (DomainError.invalidState order.status)
    else
      let amount := order.total_amount
      let risk := evaluate_transaction amount velocity reliability
      if risk.decision == "BLOCK" then
        Except.error (DomainError.riskBlocked risk.score risk.reasons)
      else if risk.decision == "REVIEW" then
        Except.error (DomainError.riskReview risk.score risk.reasons)
      else
        let p1 := get_or_create_account st.ledger "MERCHANT" order.merchant_id "WALLET" "INR"
        let merchant_wallet := p1.2
        let p2 := get_or_create_account p1.1 "SYSTEM" SYSTEM_ID "HOLD" "INR"
        let system_hold := p2.2
        if merchant_wallet.balance < amount then
          Except.error (DomainError.insufficientFunds merchant_wallet.balance amount)
        else
          let req : TransactionRequest :=
            { idempotency_key := "hold_order_" ++ toString order_id,
              reference_type := "ORDER_HOLD", reference_id := order_id,
              description := "Hold funds for Order " ++ order.po_number,
              entries := [
                { account_id := merchant_wallet.id, amount := amount, direction := "DEBIT" },
                { account_id := system_hold.id, amount := amount, direction := "CREDIT" }],
              created_by := some SYSTEM_ID }
          match post_transaction p2.1 req with
          | Except.error err => Except.error err
          | Except.ok (l3, _tx) =>
            Except.ok ({ ledger := l3, orders := setOrderStatus st.orders order_id "funds_held" },
              "Funds reserved successfully.")

/-- TransactionEngine.capture_order_payment (`transaction_engine.py`
lines 116-172): fetch the order; the status check at lines 129-132 has a
`pass` body, so no status is ever rejected; compute the 2% platform fee,
set up the hold, payable and revenue accounts, post DEBIT hold / CREDIT
payable / CREDIT revenue, and mark the order `completed`. -/
def capture_order_payment (st : EngineState) (order_id : Nat) :
    Except DomainError (EngineState × String) :=
  match findOrder st.orders order_id with
  | none => Except.error DomainError.orderNotFound
  | some order =>
    let amount := order.total_amount
    let platform_fee := amount * (2 / 100)
    let payable_amount := amount - platform_fee
    let p1 := get_or_create_account st.ledger "SYSTEM" SYSTEM_ID "HOLD" "INR"
    let system_hold := p1.2
    let p2 := get_or_create_account p1.1 "SUPPLIER" order.supplier_id "PAYABLE" "INR"
    let supplier_payable := p2.2
    let p3 := get_or_create_account p2.1 "SYSTEM" SYSTEM_ID "REVENUE" "INR"
    let system_revenue := p3.2
    let req : TransactionRequest :=
      { idempotency_key := "capture_order_" ++ toString order_id,
        reference_type := "ORDER_CAPTURE", reference_id := order_id,
        description := "Release payment for Order " ++ order.po_number,
        entries := [
          { account_id := system_hold.id, amount := amount, direction := "DEBIT" },
          { account_id := supplier_payable.id, amount := payable_amount, direction := "CREDIT" },
          { account_id := system_revenue.id, amount := platform_fee, direction := "CREDIT" }],
        created_by := some SYSTEM_ID }
    match post_transaction p3.1 req with
    | Except.error err => Except.error err
    | Except.ok (l4, _tx) =>
      Except.ok ({ ledger := l4, orders := setOrderStatus st.orders order_id "completed" },
        "Payment captured.")

/-- TransactionEngine.void_transaction (`transaction_engine.py` lines
174-207): fetch the order, reject any status other than `funds_held`,
post DEBIT hold / CREDIT wallet reversing the hold, and mark the order
`cancelled`. -/
def void_transaction (st : EngineState) (order_id : Nat) (reason : String) :
    Except DomainError (EngineState × String) :=
  match findOrder st.orders order_id with
  | none => Except.error DomainError.orderNotFound
  | some order =>
    if order.status ≠ "funds_held" then
      Except.error (DomainError.invalidState order.status)
    else
      let amount := order.total_amount
      let p1 := get_or_create_account st.ledger "MERCHANT" order.merchant_id "WALLET" "INR"
      let merchant_wallet := p1.2
      let p2 := get_or_create_account p1.1 "SYSTEM" SYSTEM_ID "HOLD" "INR"
      let system_hold := p2.2
      let req : TransactionRequest :=
        { idempotency_key := "void_order_" ++ toString order_id,
          reference_type := "ORDER_VOID", reference_id := order_id,
          description := "Void Hold: " ++ reason,
          entries := [
            { account_id := system_hold.id, amount := amount, direction := "DEBIT" },
            { account_id := merchant_wallet.id, amount := amount, direction := "CREDIT" }],
          created_by := some SYSTEM_ID }
      match post_transaction p2.1 req with
      | Except.error err => Except.error err
      | Except.ok (l3, _tx) =>
        Except.ok ({ ledger := l3, orders := setOrderStatus st.orders order_id "cancelled" },
          "Transaction voided, funds refunded.")


/-- Decidable equality of `Except` results, needed to settle concrete
runs of the services by `decide`. -/
instance instDecidableEqExcept {e a : Type} [DecidableEq e] [DecidableEq a] :
    DecidableEq (Except e a) := fun x y =>
  match x, y with
  | Except.error u, Except.error v =>
    if h : u = v then Decidable.isTrue (by rw [h])
    else Decidable.isFalse (fun hh => h (Except.error.injEq u v  |>.mp hh))
  | Except.ok u, Except.ok v =>
    if h : u = v then Decidable.isTrue (by rw [h])
    else Decidable.isFalse (fun hh => h (Except.ok.injEq u v  |>.mp hh))
  | Except.error _, Except.ok _ => Decidable.isFalse (fun hh => Except.noConfusion hh)
  | Except.ok _, Except.error _ => Decidable.isFalse (fun hh => Except.noConfusion hh)

/-- Ledger state with no rows, as a fresh database. -/
def emptyLedger : LedgerState :=
  { accounts := []
    transactions := []
    entries := []
    next_tx_id := 1
    next_account_id := 1 }

/-- Merchant wallet account used by the concrete scenarios. -/
def mkWallet (bal : Rat) : LedgerAccount :=
  { id := 1
    owner_type := "MERCHANT"
    owner_id := 7
    account_type := "WALLET"
    currency := "INR"
    balance := bal
    is_frozen := false }

/-- Order row used by the concrete scenarios. -/
def mkOrder (status : String) (total : Rat) : Order :=
  { id := 1
    merchant_id := 7
    supplier_id := 8
    po_number := "PO-1"
    status := status
    total_amount := total }

/-- Ledger holding only a merchant wallet with the given balance. -/
def walletLedger (bal : Rat) : LedgerState :=
  { accounts := [mkWallet bal]
    transactions := []
    entries := []
    next_tx_id := 1
    next_account_id := 2 }

/-- Unbalanced request used to exercise the shape validation: DEBIT 100
against CREDIT 50. -/
def reqUnbal : TransactionRequest :=
  { idempotency_key := "unbal-key"
    reference_type := "TEST"
    reference_id := 1
    description := "unbalanced"
    entries := [
      { account_id := 1, amount := 100, direction := "DEBIT" },
      { account_id := 2, amount := 50, direction := "CREDIT" }]
    created_by := none }

/-- Two-account ledger (wallet and a revenue account) for the replay
scenario. -/
def twoAccLedger : LedgerState :=
  { accounts := [mkWallet 0,
      { id := 2
        owner_type := "SYSTEM"
        owner_id := 0
        account_type := "REVENUE"
        currency := "INR"
        balance := 0
        is_frozen := false }]
    transactions := []
    entries := []
    next_tx_id := 1
    next_account_id := 3 }

/-- Balanced request with key "dup-key": DEBIT wallet 5, CREDIT revenue 5. -/
def reqDup : TransactionRequest :=
  { idempotency_key := "dup-key"
    reference_type := "TEST"
    reference_id := 1
    description := "first post"
    entries := [
      { account_id := 1, amount := 5, direction := "DEBIT" },
      { account_id := 2, amount := 5, direction := "CREDIT" }]
    created_by := none }

/-- A second request reusing the key "dup-key". -/
def reqDup2 : TransactionRequest :=
  { idempotency_key := "dup-key"
    reference_type := "TEST"
    reference_id := 2
    description := "replay"
    entries := [
      { account_id := 1, amount := 7, direction := "DEBIT" },
      { account_id := 2, amount := 7, direction := "CREDIT" }]
    created_by := none }

/-- Ledger with an escrow HOLD account (id 1) and a wallet (id 2), both at
balance zero, for the delta-convention scenario. -/
def holdLedger : LedgerState :=
  { accounts := [
      { id := 1
        owner_type := "SYSTEM"
        owner_id := 0
        account_type := "HOLD"
        currency := "INR"
        balance := 0
        is_frozen := false },
      { id := 2
        owner_type := "MERCHANT"
        owner_id := 7
        account_type := "WALLET"
        currency := "INR"
        balance := 0
        is_frozen := false }]
    transactions := []
    entries := []
    next_tx_id := 1
    next_account_id := 3 }

/-- Balanced request debiting the HOLD account 5 and crediting the wallet
5. -/
def reqHoldDebit : TransactionRequest :=
  { idempotency_key := "c3-key"
    reference_type := "TEST"
    reference_id := 3
    description := "debit the hold account"
    entries := [
      { account_id := 1, amount := 5, direction := "DEBIT" },
      { account_id := 2, amount := 5, direction := "CREDIT" }]
    created_by := none }

/-- Engine state whose one order is still `pending` (funds never held),
total 40. -/
def stPendingNoHold : EngineState :=
  { ledger := emptyLedger, orders := [mkOrder "pending" 40] }

/-- Engine state whose one order is `pending` with total 60000 (above the
auto-approve ceiling). -/
def stHighValue : EngineState :=
  { ledger := emptyLedger, orders := [mkOrder "pending" 60000] }

/-- Engine state of the round-trip scenario: merchant wallet at 1000, one
pending order of total 500. -/
def stRoundTrip : EngineState :=
  { ledger := walletLedger 1000, orders := [mkOrder "pending" 500] }

/-- Engine state parametrized by the wallet balance `w` and the order
total `a`: one pending order, merchant wallet funded at `w`. -/
def holdVoidInit (w a : Rat) : EngineState :=
  { ledger := walletLedger w, orders := [mkOrder "pending" a] }

/-- Engine state whose one order is `shipped` with total 100 while the
ledger holds no account at all: no hold was ever placed for it. -/
def stShippedNoHold : EngineState :=
  { ledger := emptyLedger, orders := [mkOrder "shipped" 100] }

/-- Engine state with a wallet funded at 30 and a pending order of total
100: not enough to hold. -/
def stUnderfunded : EngineState :=
  { ledger := walletLedger 30, orders := [mkOrder "pending" 100] }

/-- Engine state whose one order already sits in `funds_held`. -/
def stAlreadyHeld : EngineState :=
  { ledger := walletLedger 250, orders := [mkOrder "funds_held" 250] }

/-- The escrow HOLD account row of `holdLedger`. -/
def holdAcc : LedgerAccount :=
  { id := 1
    owner_type := "SYSTEM"
    owner_id := 0
    account_type := "HOLD"
    currency := "INR"
    balance := 0
    is_frozen := false }

/-- Transaction record created by posting `reqDup` against
`twoAccLedger`. -/
def dupTx : LedgerTransaction :=
  { id := 1
    idempotency_key := "dup-key"
    reference_type := "TEST"
    reference_id := 1
    description := "first post"
    status := "posted"
    created_by := none }

/-- Ledger state after posting `reqDup` against `twoAccLedger`: wallet
debited to 5, revenue credited to 5, one stored transaction. -/
def dupPosted : LedgerState :=
  { accounts := [mkWallet 5,
      { id := 2
        owner_type := "SYSTEM"
        owner_id := 0
        account_type := "REVENUE"
        currency := "INR"
        balance := 5
        is_frozen := false }]
    transactions := [dupTx]
    entries := [
      { transaction_id := 1, account_id := 1, direction := "DEBIT", amount := 5, balance_after := 5 },
      { transaction_id := 1, account_id := 2, direction := "CREDIT", amount := 5, balance_after := 5 }]
    next_tx_id := 2
    next_account_id := 3 }

/-- A successful `applyEntry` stores the requested direction and amount
and stamps the parent transaction id. -/
theorem applyEntry_ok_fields {accounts : List LedgerAccount} {txid : Nat} {e : EntryRequest}
    {acc2 : List LedgerAccount} {le : LedgerEntry}
    (h : applyEntry accounts txid e = Except.ok (acc2, le)) :
    le.direction = e.direction ∧ le.amount = e.amount ∧ le.transaction_id = txid := by
  unfold applyEntry at h
  split at h
  · exact absurd h (by simp)
  · split at h
    · exact absurd h (by simp)
    · simp only [Except.ok.injEq, Prod.mk.injEq] at h
      obtain ⟨h1, h2⟩ := h
      subst h2
      exact ⟨rfl, rfl, rfl⟩

/-- Entry records produced by a successful `processEntries` run carry the
transaction id and sum, per direction, to the requested sums. -/
theorem processEntries_ok_props {txid : Nat} :
    ∀ {l : List EntryRequest} {accounts acc2 : List LedgerAccount} {les : List LedgerEntry},
    processEntries accounts txid l = Except.ok (acc2, les) →
    (∀ le ∈ les, le.transaction_id = txid) ∧ ∀ d, entrySumDir les d = reqSumDir l d := by
  intro l
  induction l with
  | nil =>
    intro accounts acc2 les h
    simp only [processEntries, Except.ok.injEq, Prod.mk.injEq] at h
    obtain ⟨h1, h2⟩ := h
    subst h2
    exact ⟨by simp, fun d => by simp [entrySumDir, reqSumDir]⟩
  | cons e rest ih =>
    intro accounts acc2 les h
    unfold processEntries at h
    split at h
    · exact absurd h (by simp)
    · rename_i p a2 le ha
      split at h
      · exact absurd h (by simp)
      · rename_i q a3 les2 hp
        simp only [Except.ok.injEq, Prod.mk.injEq] at h
        obtain ⟨he1, he2⟩ := h
        subst he2
        obtain ⟨hd, ham, htx⟩ := applyEntry_ok_fields ha
        obtain ⟨ih1, ih2⟩ := ih hp
        refine ⟨?_, ?_⟩
        · intro x hx
          rcases List.mem_cons.mp hx with hx | hx
          · subst hx; exact htx
          · exact ih1 x hx
        · intro d
          simp only [entrySumDir, reqSumDir, List.foldr_cons] at *
          rw [hd, ham, ih2 d]

/-- Inserting keeps the list a permutation of consing. -/
theorem insertByAccount_perm (e : EntryRequest) (l : List EntryRequest) :
    (insertByAccount e l).Perm (e :: l) := by
  induction l with
  | nil => exact List.Perm.refl _
  | cons x xs ih =>
    unfold insertByAccount
    by_cases h : x.account_id < e.account_id
    · rw [if_pos h]
      exact (ih.cons x).trans (List.Perm.swap e x xs)
    · rw [if_neg h]

/-- The deadlock-avoidance sort permutes the requested entries. -/
theorem sortEntries_perm (l : List EntryRequest) : (sortEntries l).Perm l := by
  induction l with
  | nil => exact List.Perm.refl _
  | cons e rest ih =>
    unfold sortEntries
    exact (insertByAccount_perm e (sortEntries rest)).trans (ih.cons e)

/-- Per-direction sums are unchanged by the deadlock-avoidance sort. -/
theorem reqSumDir_sortEntries (l : List EntryRequest) (d : String) :
    reqSumDir (sortEntries l) d = reqSumDir l d := by
  unfold reqSumDir
  haveI : LeftCommutative (fun (e : EntryRequest) (acc : Rat) =>
      if e.direction == d then e.amount + acc else acc) := by
    constructor
    intro a b c
    by_cases h1 : a.direction == d <;> by_cases h2 : b.direction == d <;>
      simp [h1, h2] <;> try ring
  exact (sortEntries_perm l).foldr_eq 0

/-- A ledger with no transaction under a key counts zero for it. -/
theorem countKey_eq_zero {st : LedgerState} {k : String}
    (h : hasKey st k = false) : countKey st k = 0 := by
  unfold hasKey at h
  unfold countKey
  rw [List.any_eq_false] at h
  rw [List.length_eq_zero]
  exact List.filter_eq_nil_iff.mpr h

/-- Posting against a ledger that already holds the idempotency key is
rejected with the duplicate-submission error. -/
theorem post_transaction_dup {st1 : LedgerState} {req2 : TransactionRequest}
    (h : hasKey st1 req2.idempotency_key = true) :
    post_transaction st1 req2 =
      Except.error (DomainError.duplicateKey req2.idempotency_key) := by
  unfold post_transaction
  rw [if_pos h]

/-- Destructor for a successful `post_transaction` call: the key was
fresh, the request was balanced and positive, the transaction was
appended, and the entry loop produced the appended entry records. -/
theorem post_transaction_ok_dest {st : LedgerState} {req : TransactionRequest}
    {st1 : LedgerState} {tx : LedgerTransaction}
    (h : post_transaction st req = Except.ok (st1, tx)) :
    hasKey st req.idempotency_key = false ∧
    sumDebits req.entries = sumCredits req.entries ∧
    0 < sumDebits req.entries ∧
    tx.idempotency_key = req.idempotency_key ∧
    st1.transactions = st.transactions ++ [tx] ∧
    ∃ les, st1.entries = st.entries ++ les ∧
      processEntries st.accounts st.next_tx_id (sortEntries req.entries) =
        Except.ok (st1.accounts, les) := by
  unfold post_transaction at h
  split at h
  · exact absurd h (by simp)
  · split at h
    · exact absurd h (by simp)
    · split at h
      · exact absurd h (by simp)
      · rename_i hk hb hp
        dsimp only at h
        split at h
        · exact absurd h (by simp)
        · rename_i pe a2 les hpe
          simp only [Except.ok.injEq, Prod.mk.injEq] at h
          obtain ⟨h1, h2⟩ := h
          subst h1; subst h2
          refine ⟨by simpa using hk, by simpa using hb, by simpa using hp, rfl, rfl, les, rfl, hpe⟩

/-- C1: for every transaction request, `post_transaction` rejects any
request whose DEBIT sum differs from its CREDIT sum (unbalanced error
when the key is fresh) and any request whose total is not strictly
positive (degenerate error); an error result carries no successor state,
so no balance is mutated and no entry is persisted.  Every transaction it
does return has equal, strictly positive debit and credit sums over both
the requested and the stored entries. -/
theorem C1_shape_validation (st : LedgerState) (req : TransactionRequest) :
    (sumDebits req.entries ≠ sumCredits req.entries ∨ sumDebits req.entries ≤ 0 →
      ∃ e, post_transaction st req = Except.error e) ∧
    (hasKey st req.idempotency_key = false →
      (sumDebits req.entries ≠ sumCredits req.entries →
        post_transaction st req =
          Except.error (DomainError.unbalanced (sumDebits req.entries) (sumCredits req.entries))) ∧
      (sumDebits req.entries = sumCredits req.entries → sumDebits req.entries ≤ 0 →
        post_transaction st req = Except.error DomainError.notPositive)) ∧
    (∀ st1 tx, post_transaction st req = Except.ok (st1, tx) →
      sumDebits req.entries = sumCredits req.entries ∧
      0 < sumDebits req.entries ∧
      ∃ les, st1.entries = st.entries ++ les ∧
        entrySumDir les "DEBIT" = sumDebits req.entries ∧
        entrySumDir les "CREDIT" = sumCredits req.entries ∧
        ∀ le ∈ les, le.transaction_id = st.next_tx_id) := by
  refine ⟨?_, ?_, ?_⟩
  · intro hbad
    unfold post_transaction
    split
    · exact ⟨_, rfl⟩
    · split
      · exact ⟨_, rfl⟩
      · split
        · exact ⟨_, rfl⟩
        · rename_i h1 h2 h3
          rcases hbad with hb | hb
          · exact absurd hb h2
          · exact absurd hb h3
  · intro hfresh
    constructor
    · intro hb
      unfold post_transaction
      rw [if_neg (by rw [hfresh]; exact Bool.false_ne_true), if_pos hb]
    · intro heq hle
      unfold post_transaction
      rw [if_neg (by rw [hfresh]; exact Bool.false_ne_true),
        if_neg (by rw [heq]; exact fun hh => hh rfl), if_pos hle]
  · intro st1 tx h
    obtain ⟨_, hb, hp, _, _, les, hee, hpe⟩ := post_transaction_ok_dest h
    obtain ⟨htx, hsum⟩ := processEntries_ok_props hpe
    refine ⟨hb, hp, les, hee, ?_, ?_, htx⟩
    · rw [hsum "DEBIT", sumDebits, reqSumDir_sortEntries]
    · rw [hsum "CREDIT", sumCredits, reqSumDir_sortEntries]

/-- Witness for C1: the unbalanced request (DEBIT 100 against CREDIT 50)
is rejected with the unbalanced-transaction error. -/
theorem C1_shape_validation_witness :
    post_transaction twoAccLedger reqUnbal =
      Except.error (DomainError.unbalanced (sumDebits reqUnbal.entries)
        (sumCredits reqUnbal.entries)) :=
  ((C1_shape_validation twoAccLedger reqUnbal).2.1 (by decide)).1 (by decide)

/-- C2: replay rejection.  A successful post with a fresh idempotency key
leaves exactly one transaction carrying that key, and a second request
with the same key is rejected with the duplicate-submission error, so no
second transaction or balance change can occur. -/
theorem C2_idempotent_replay (st : LedgerState) (req1 req2 : TransactionRequest)
    (st1 : LedgerState) (tx1 : LedgerTransaction)
    (hok : post_transaction st req1 = Except.ok (st1, tx1))
    (hkey : req2.idempotency_key = req1.idempotency_key) :
    countKey st req1.idempotency_key = 0 ∧
    countKey st1 req1.idempotency_key = 1 ∧
    post_transaction st1 req2 =
      Except.error (DomainError.duplicateKey req2.idempotency_key) := by
  obtain ⟨hk, _hb, _hp, htk, htr, _⟩ := post_transaction_ok_dest hok
  have h0 : countKey st req1.idempotency_key = 0 := countKey_eq_zero hk
  have h1 : countKey st1 req1.idempotency_key = 1 := by
    unfold countKey at h0 ⊢
    rw [htr, List.filter_append]
    rw [List.length_append, h0]
    simp [htk]
  refine ⟨h0, h1, post_transaction_dup ?_⟩
  unfold hasKey
  rw [List.any_eq_true]
  refine ⟨tx1, ?_, ?_⟩
  · rw [htr]; exact List.mem_append_right _ (List.mem_singleton.mpr rfl)
  · rw [htk, hkey]; exact beq_self_eq_true _

/-- Witness for C2: posting `reqDup` once against the two-account ledger
succeeds; the replay `reqDup2` under the same key is rejected. -/
theorem C2_idempotent_replay_witness :
    countKey twoAccLedger "dup-key" = 0 ∧
    countKey dupPosted "dup-key" = 1 ∧
    post_transaction dupPosted reqDup2 =
      Except.error (DomainError.duplicateKey reqDup2.idempotency_key) :=
  C2_idempotent_replay twoAccLedger reqDup reqDup2 dupPosted dupTx (by decide) (by decide)

/-- C3 counterexample: the claim says a DEBIT on an escrow-hold (HOLD)
account increases its balance; in the code HOLD is absent from the
asset-like list of `ledger.py` line 150, so posting a balanced
transaction that debits the zero-balance HOLD account by 5 drives the
balance to minus 5 — a decrease, not an increase. -/
theorem C3_hold_counterexample :
    balance_change "HOLD" "DEBIT" 5 = -5 ∧
    (post_transaction holdLedger reqHoldDebit).map (fun p => getBalance p.1 1) =
      Except.ok (some (-5)) ∧
    ¬ (0 : Rat) < -5 := by decide

/-- C3 amended: every entry applied by `post_transaction` moves the
account balance by exactly `balance_change`; the asset-like types that
increase on DEBIT are WALLET, RECEIVABLE and EXPENSE; every other
account type — HOLD (escrow-hold) included — increases on CREDIT and
decreases on DEBIT. -/
theorem C3_delta_convention (accounts : List LedgerAccount) (txid : Nat) (e : EntryRequest)
    (a : LedgerAccount) (hfind : findAccount accounts e.account_id = some a)
    (hfz : a.is_frozen = false) :
    applyEntry accounts txid e = Except.ok
      (storeAccount accounts { a with
         balance := a.balance + balance_change a.account_type e.direction e.amount },
       { transaction_id := txid, account_id := a.id, direction := e.direction,
         amount := e.amount,
         balance_after := a.balance + balance_change a.account_type e.direction e.amount }) ∧
    (∀ amt : Rat, a.account_type = "WALLET" ∨ a.account_type = "RECEIVABLE" ∨
        a.account_type = "EXPENSE" →
      balance_change a.account_type "DEBIT" amt = amt ∧
      balance_change a.account_type "CREDIT" amt = -amt) ∧
    (∀ amt : Rat, a.account_type ≠ "WALLET" → a.account_type ≠ "RECEIVABLE" →
        a.account_type ≠ "EXPENSE" →
      balance_change a.account_type "CREDIT" amt = amt ∧
      balance_change a.account_type "DEBIT" amt = -amt) ∧
    (∀ amt : Rat, balance_change "HOLD" "CREDIT" amt = amt ∧
      balance_change "HOLD" "DEBIT" amt = -amt) := by
  refine ⟨?_, ?_, ?_, ?_⟩
  · unfold applyEntry
    split
    · rename_i hnone
      rw [hfind] at hnone
      exact absurd hnone (by simp)
    · rename_i acct hsome
      rw [hfind] at hsome
      injection hsome with haa
      subst haa
      rw [if_neg (by rw [hfz]; exact Bool.false_ne_true)]
  · intro amt h
    rcases h with h | h | h <;> rw [h] <;> simp [balance_change]
  · intro amt h1 h2 h3
    have hc : (a.account_type == "WALLET" || a.account_type == "RECEIVABLE" ||
        a.account_type == "EXPENSE") = false := by
      simp [h1, h2, h3]
    unfold balance_change
    rw [hc]
    simp
  · intro amt
    constructor <;> simp [balance_change]

/-- Witness for the amended C3: on the HOLD account of `holdLedger`, a
CREDIT of 5 adds 5 and a DEBIT of 5 subtracts 5. -/
theorem C3_delta_convention_witness :
    balance_change "HOLD" "CREDIT" 5 = 5 ∧ balance_change "HOLD" "DEBIT" 5 = -5 :=
  (C3_delta_convention holdLedger.accounts 1
    { account_id := 1, amount := 5, direction := "DEBIT" } holdAcc
    (by decide) (by decide)).2.2.2 5

/-- C4 at the failing input: the status guard of
`capture_order_payment` (`transaction_engine.py` lines 129-132) has a
`pass` body, so capturing an order that is still `pending` — funds never
held — succeeds and marks the order `completed` instead of raising an
invalid-state-transition error. -/
theorem C4_capture_ignores_status :
    (capture_order_payment stPendingNoHold 1).map (fun p => (p.2, orderStatus p.1 1)) =
      Except.ok ("Payment captured.", some "completed") := by decide

/-- C5: with the order still `pending`, a REVIEW or BLOCK risk decision
makes `place_order_hold` fail with the matching not-authorized error
carrying the score and reasons, before any account is touched; the
60000-unit transfer with no velocity scores exactly 50, decision REVIEW,
and its hold attempt fails that way. -/
theorem C5_risk_gate_fail_closed (st : EngineState) (oid velocity : Nat)
    (rel : Option Rat) (o : Order)
    (hfind : findOrder st.orders oid = some o) (hstatus : o.status = "pending")
    (hdec : (evaluate_transaction o.total_amount velocity rel).decision = "REVIEW" ∨
            (evaluate_transaction o.total_amount velocity rel).decision = "BLOCK") :
    (place_order_hold st oid velocity rel =
       Except.error (DomainError.riskReview
         (evaluate_transaction o.total_amount velocity rel).score
         (evaluate_transaction o.total_amount velocity rel).reasons) ∨
     place_order_hold st oid velocity rel =
       Except.error (DomainError.riskBlocked
         (evaluate_transaction o.total_amount velocity rel).score
         (evaluate_transaction o.total_amount velocity rel).reasons)) ∧
    (evaluate_transaction 60000 0 none).score = 50 ∧
    (evaluate_transaction 60000 0 none).decision = "REVIEW" ∧
    place_order_hold stHighValue 1 0 none =
      Except.error (DomainError.riskReview 50 ["High Value Transaction (> 50000.00)"]) := by
  refine ⟨?_, by decide, by decide, by decide⟩
  unfold place_order_hold
  split
  · rename_i hnone
    rw [hfind] at hnone
    exact absurd hnone (by simp)
  · rename_i o2 hsome
    rw [hfind] at hsome
    injection hsome with ho
    subst ho
    rw [if_neg (by rw [hstatus]; exact fun hh => hh rfl)]
    dsimp only
    rcases hdec with hd | hd
    · rw [hd]
      simp
    · rw [hd]
      simp

/-- Witness for C5 at the concrete 60000-unit pending order. -/
theorem C5_risk_gate_fail_closed_witness :
    place_order_hold stHighValue 1 0 none =
       Except.error (DomainError.riskReview
         (evaluate_transaction (mkOrder "pending" 60000).total_amount 0 none).score
         (evaluate_transaction (mkOrder "pending" 60000).total_amount 0 none).reasons) ∨
    place_order_hold stHighValue 1 0 none =
       Except.error (DomainError.riskBlocked
         (evaluate_transaction (mkOrder "pending" 60000).total_amount 0 none).score
         (evaluate_transaction (mkOrder "pending" 60000).total_amount 0 none).reasons) :=
  (C5_risk_gate_fail_closed stHighValue 1 0 none (mkOrder "pending" 60000)
    (by decide) (by decide) (Or.inl (by decide))).1

/-- C6: the risk score is the additive sum — base 10, plus 40 over the
50000 auto-approve ceiling, plus 50 when the trailing-hour order count
exceeds 10, plus 30 when a known reliability score is under 3/10 — and
the decision is BLOCK at score 80 and above, else REVIEW at score 50 or
over-ceiling amounts, else APPROVE. -/
theorem C6_risk_score_formula (amount : Rat) (velocity : Nat) (rel : Option Rat) :
    (evaluate_transaction amount velocity rel).score =
      10 + (if MAX_AUTO_APPROVE_AMOUNT < amount then 40 else 0)
         + (if VELOCITY_LIMIT_1H < velocity then 50 else 0)
         + (match rel with
            | some r => if r < LOW_TRUST_THRESHOLD then 30 else 0
            | none => 0) ∧
    (evaluate_transaction amount velocity rel).decision =
      (if CRITICAL_RISK_SCORE_THRESHOLD ≤ (evaluate_transaction amount velocity rel).score
       then "BLOCK"
       else if 50 ≤ (evaluate_transaction amount velocity rel).score ∨
               MAX_AUTO_APPROVE_AMOUNT < amount
       then "REVIEW" else "APPROVE") := by
  constructor
  · rcases rel with _ | r
    · unfold evaluate_transaction
      dsimp only
      split_ifs <;> first | ring1 | contradiction | simp_all
    · unfold evaluate_transaction
      dsimp only
      split_ifs <;> first | ring1 | contradiction | simp_all
  · rcases rel with _ | r <;> (unfold evaluate_transaction; dsimp only) <;> rfl

/-- C7 at the numbers of the spec: wallet 1000, order total 500.  After
the hold the escrow-hold balance is 500 and the order is `funds_held`,
and after the capture escrow-hold is 0, supplier payable 490, platform
revenue 10, order `completed` — but the merchant wallet lands at 1500,
not 500: the hold posts a DEBIT against the WALLET account and the
ledger convention increases asset accounts on debit, contradicting the
comment on that entry and the test of the repo itself, which assert the wallet
drops to 500. -/
theorem C7_hold_capture_trace :
    ((place_order_hold stRoundTrip 1 0 none).bind (fun p =>
      (capture_order_payment p.1 1).map (fun q =>
        (getBalance p.1.ledger 1, getBalance p.1.ledger 2, orderStatus p.1 1,
         getBalance q.1.ledger 2, getBalance q.1.ledger 3, getBalance q.1.ledger 4,
         orderStatus q.1 1)))) =
      Except.ok (some 1500, some 500, some "funds_held",
        some 0, some 490, some 10, some "completed") := by decide

/-- C8: hold followed by void returns the merchant wallet exactly to its
pre-hold balance `w` and cancels the order, for every wallet balance `w`
and positive order total `a` within the approval ceiling; and voiding an
order in any status other than `funds_held` fails with the
invalid-state error. -/
theorem C8_void_round_trip (w a : Rat) (h0 : 0 < a) (h1 : a ≤ w) (h2 : a ≤ 50000) :
    ((place_order_hold (holdVoidInit w a) 1 0 none).bind (fun p =>
      (void_transaction p.1 1 "reverse").map (fun q =>
        (q.2, getBalance q.1.ledger 1, orderStatus q.1 1)))) =
      Except.ok ("Transaction voided, funds refunded.", some w, some "cancelled") ∧
    (∀ st : EngineState, ∀ oid : Nat, ∀ r : String, ∀ o : Order,
      findOrder st.orders oid = some o → o.status ≠ "funds_held" →
      void_transaction st oid r = Except.error (DomainError.invalidState o.status)) := by
  constructor
  · have hv : ¬ (50000 : Rat) < a := not_lt.mpr h2
    have h80 : ¬ (80 : Rat) ≤ 10 := by norm_num
    have h50 : ¬ (50 : Rat) ≤ 10 := by norm_num
    have hw : ¬ w < a := not_lt.mpr h1
    have hp : ¬ a ≤ 0 := h0.not_le
    have hkeys : (("hold_order_" ++ toString (1 : Nat)) ==
        ("void_order_" ++ toString (1 : Nat))) = false := by decide
    simp [place_order_hold, void_transaction, holdVoidInit, walletLedger, mkWallet, mkOrder,
      findOrder, evaluate_transaction, get_or_create_account, post_transaction, hasKey, sumDebits,
      sumCredits, reqSumDir, sortEntries, insertByAccount, processEntries, applyEntry, findAccount,
      storeAccount, balance_change, setOrderStatus, getBalance, orderStatus,
      MAX_AUTO_APPROVE_AMOUNT, VELOCITY_LIMIT_1H, CRITICAL_RISK_SCORE_THRESHOLD,
      LOW_TRUST_THRESHOLD, SYSTEM_ID, hv, hw, hp, hkeys, h80, h50, Except.bind, Except.map]
  · intro st oid r o hf hs
    unfold void_transaction
    split
    · rename_i hnone
      rw [hf] at hnone
      exact absurd hnone (by simp)
    · rename_i o2 hsome
      rw [hf] at hsome
      injection hsome with ho
      subst ho
      rw [if_pos hs]

/-- Witness for C8 at wallet 1000 and order total 250. -/
theorem C8_void_round_trip_witness :
    ((place_order_hold (holdVoidInit 1000 250) 1 0 none).bind (fun p =>
      (void_transaction p.1 1 "reverse").map (fun q =>
        (q.2, getBalance q.1.ledger 1, orderStatus q.1 1)))) =
      Except.ok ("Transaction voided, funds refunded.", some 1000, some "cancelled") :=
  (C8_void_round_trip 1000 250 (by norm_num) (by norm_num) (by norm_num)).1

/-- After `setOrderStatus`, the same order is found with the new
status. -/
theorem findOrder_setOrderStatus {l : List Order} {oid : Nat} {o : Order}
    (h : findOrder l oid = some o) (s : String) :
    findOrder (setOrderStatus l oid s) oid = some { o with status := s } := by
  unfold findOrder setOrderStatus at *
  induction l with
  | nil => simp at h
  | cons x xs ih =>
    cases hx : (x.id == oid) with
    | true =>
      simp only [List.find?_cons, hx] at h
      injection h with hxo
      subst hxo
      have hid : x.id = oid := by simpa using hx
      simp [List.find?_cons, hid]
    | false =>
      simp only [List.find?_cons, hx] at h
      simp only [List.map_cons, List.find?_cons, hx, if_neg]
      rw [if_neg (by simp [hx])]
      simp only [hx]
      exact ih h

/-- A hold on an order already in `funds_held` is a no-op success. -/
theorem place_order_hold_on_held {st : EngineState} {oid : Nat} (velocity : Nat)
    (rel : Option Rat) {o : Order}
    (hfind : findOrder st.orders oid = some o) (hfh : o.status = "funds_held") :
    place_order_hold st oid velocity rel = Except.ok (st, "Funds already held.") := by
  unfold place_order_hold
  split
  · rename_i hnone
    rw [hfind] at hnone
    exact absurd hnone (by simp)
  · rename_i o2 hsome
    rw [hfind] at hsome
    injection hsome with ho
    subst ho
    rw [if_pos (by rw [hfh]; decide), if_pos hfh]

/-- A hold on an order in any status other than `pending` or
`funds_held` is rejected with the invalid-state error. -/
theorem place_order_hold_invalid {st : EngineState} {oid : Nat} (velocity : Nat)
    (rel : Option Rat) {o : Order} (hfind : findOrder st.orders oid = some o)
    (hnp : o.status ≠ "pending") (hnf : o.status ≠ "funds_held") :
    place_order_hold st oid velocity rel =
      Except.error (DomainError.invalidState o.status) := by
  unfold place_order_hold
  split
  · rename_i hnone
    rw [hfind] at hnone
    exact absurd hnone (by simp)
  · rename_i o2 hsome
    rw [hfind] at hsome
    injection hsome with ho
    subst ho
    rw [if_pos hnp, if_neg hnf]

/-- C9: `place_order_hold` succeeds as a state-preserving no-op when the
order is already `funds_held`, raises the invalid-state error on every
other non-pending status, and after any successful hold a second call
returns the same success message with the state unchanged — so exactly
one hold transaction ever exists. -/
theorem C9_hold_state_machine (st : EngineState) (oid velocity : Nat) (rel : Option Rat)
    (o : Order) (hfind : findOrder st.orders oid = some o) :
    (o.status = "funds_held" → place_order_hold st oid velocity rel =
      Except.ok (st, "Funds already held.")) ∧
    (o.status ≠ "pending" → o.status ≠ "funds_held" →
      place_order_hold st oid velocity rel =
        Except.error (DomainError.invalidState o.status)) ∧
    (∀ st1 m, place_order_hold st oid velocity rel = Except.ok (st1, m) →
      place_order_hold st1 oid velocity rel = Except.ok (st1, "Funds already held.")) := by
  refine ⟨fun hfh => place_order_hold_on_held velocity rel hfind hfh,
    fun hnp hnf => place_order_hold_invalid velocity rel hfind hnp hnf, ?_⟩
  intro st1 m h
  by_cases hp : o.status = "pending"
  · unfold place_order_hold at h
    split at h
    · exact absurd h (by simp)
    · rename_i o2 hsome
      rw [hfind] at hsome
      injection hsome with ho
      subst ho
      rw [if_neg (fun hc => hc hp)] at h
      dsimp only at h
      split at h
      · exact absurd h (by simp)
      · split at h
        · exact absurd h (by simp)
        · split at h
          · exact absurd h (by simp)
          · split at h
            · exact absurd h (by simp)
            · rename_i l3 tx hpost
              simp only [Except.ok.injEq, Prod.mk.injEq] at h
              obtain ⟨h1, h2⟩ := h
              subst h1
              exact place_order_hold_on_held velocity rel
                (findOrder_setOrderStatus hfind "funds_held") rfl
  · by_cases hfh : o.status = "funds_held"
    · have hcall := place_order_hold_on_held velocity rel hfind hfh
      rw [hcall] at h
      simp only [Except.ok.injEq, Prod.mk.injEq] at h
      obtain ⟨h1, h2⟩ := h
      subst h1
      exact place_order_hold_on_held velocity rel hfind hfh
    · have herr := place_order_hold_invalid velocity rel hfind hp hfh
      rw [herr] at h
      exact absurd h (by simp)

/-- Witness for C9: on the order already in `funds_held`, the hold call
returns the no-op success with the state unchanged. -/
theorem C9_hold_state_machine_witness :
    place_order_hold stAlreadyHeld 1 0 none =
      Except.ok (stAlreadyHeld, "Funds already held.") :=
  (C9_hold_state_machine stAlreadyHeld 1 0 none (mkOrder "funds_held" 250)
    (by decide)).1 (by decide)

/-- C10: the ledger enforces no lower bound on balances.  Capturing a
shipped order for which no hold was ever placed succeeds and leaves the
freshly created escrow-hold account at minus 100; the only
balance-sufficiency check in the core is the merchant-wallet check of
`place_order_hold`, which does reject an underfunded hold. -/
theorem C10_no_balance_floor :
    (capture_order_payment stShippedNoHold 1).map (fun p =>
      (p.2, getBalance p.1.ledger 1, orderStatus p.1 1)) =
      Except.ok ("Payment captured.", some (-100), some "completed") ∧
    ((-100 : Rat) < 0) ∧
    place_order_hold stUnderfunded 1 0 none =
      Except.error (DomainError.insufficientFunds 30 100) := by decide
